import Mathlib

/-
  Verification of the Polymarket MCP server (src/polymarket_mcp/server.py)
  against its natural-language specification.

  The Python module is shallowly embedded: Python values that flow through
  the server (JSON payloads, tool arguments, API responses) are modelled by
  the inductive type `PyVal`; fallible Python operations (attribute access,
  subscripting, iteration) return `Except PyExc`; the outbound HTTP calls of
  the news tools are modelled by an explicit `HttpRequest` record and a
  response oracle `http : HttpRequest → PyVal`, and the scrape of the
  Polymarket homepage by a `FetchOutcome` describing what `requests.get`,
  BeautifulSoup and `json.loads` produced.
-/

set_option autoImplicit false

namespace PolymarketMCP

/-- Python values as they occur in this server: JSON-shaped data plus
`None`. Dictionaries are association lists in insertion order, matching
CPython dict semantics. -/
inductive PyVal where
  | none
  | bool (b : Bool)
  | int (n : Int)
  | str (s : String)
  | list (xs : List PyVal)
  | dict (kvs : List (String × PyVal))

/-- The Python exceptions the embedded code can raise. -/
inductive PyExc where
  | attributeError (msg : String)
  | indexError (msg : String)
  | typeError (msg : String)
  | keyError (key : String)
  | httpError (msg : String)
  | valueError (msg : String)
deriving DecidableEq

/-- `str(e)` for an exception: the message it carries. -/
def excMsg : PyExc → String
  | .attributeError m => m
  | .indexError m => m
  | .typeError m => m
  | .keyError k => "\x27" ++ k ++ "\x27"
  | .httpError m => m
  | .valueError m => m

/-- First-match association lookup, as a CPython dict read. -/
def alookup : List (String × PyVal) → String → Option PyVal
  | [], _ => Option.none
  | (k, v) :: rest, key => if k = key then some v else alookup rest key

/-- Python truthiness (`if x:`). -/
def truthy : PyVal → Bool
  | .none => false
  | .bool b => b
  | .int n => n != 0
  | .str s => !s.isEmpty
  | .list xs => !xs.isEmpty
  | .dict kvs => !kvs.isEmpty

/-- `isinstance(x, dict)`. -/
def isDict : PyVal → Bool
  | .dict _ => true
  | _ => false

/-- Python `x == "lit"` for a string literal: true only when `x` is that
very string (comparison of a non-string with a string is `False`). -/
def isStrVal (v : PyVal) (s : String) : Bool :=
  match v with
  | .str t => t = s
  | _ => false

mutual

/-- `repr()` of a Python value (JSON-shaped fragment). -/
def pyRepr : PyVal → String
  | PyVal.none => "None"
  | .bool true => "True"
  | .bool false => "False"
  | .int n => toString n
  | .str s => "\x27" ++ s ++ "\x27"
  | .list xs => "[" ++ pyReprElems xs ++ "]"
  | .dict kvs => "\x7b" ++ pyReprPairs kvs ++ "\x7d"

/-- Comma-separated `repr`s of list elements. -/
def pyReprElems : List PyVal → String
  | [] => ""
  | [v] => pyRepr v
  | v :: vs => pyRepr v ++ ", " ++ pyReprElems vs

/-- Comma-separated `repr`s of dict entries. -/
def pyReprPairs : List (String × PyVal) → String
  | [] => ""
  | [(k, v)] => "\x27" ++ k ++ "\x27: " ++ pyRepr v
  | (k, v) :: kvs => "\x27" ++ k ++ "\x27: " ++ pyRepr v ++ ", " ++ pyReprPairs kvs

end

/-- `str()` of a Python value, as used by f-string interpolation: identity
on strings, `repr` otherwise. -/
def pyStr : PyVal → String
  | PyVal.str s => s
  | v => pyRepr v

/-- `v.get(key, dflt)`: a dict method, so an `AttributeError` on any
non-dict receiver. -/
def dictGet (v : PyVal) (key : String) (dflt : PyVal) : Except PyExc PyVal :=
  match v with
  | .dict kvs => .ok ((alookup kvs key).getD dflt)
  | _ => .error (.attributeError ("object has no attribute get (key " ++ key ++ ")"))

/-- `v[i]` for a non-negative integer index. -/
def subscriptIdx (v : PyVal) (i : Nat) : Except PyExc PyVal :=
  match v with
  | .list xs =>
    match xs[i]? with
    | some x => .ok x
    | Option.none => .error (.indexError "list index out of range")
  | .str s =>
    match s.toList[i]? with
    | some c => .ok (.str (String.singleton c))
    | Option.none => .error (.indexError "string index out of range")
  | _ => .error (.typeError "object is not subscriptable")

/-- `v[key]` for a string key. -/
def subscriptKey (v : PyVal) (key : String) : Except PyExc PyVal :=
  match v with
  | .dict kvs =>
    match alookup kvs key with
    | some x => .ok x
    | Option.none => .error (.keyError key)
  | _ => .error (.typeError "object is not subscriptable")

/-- `len(v)`. -/
def pyLen : PyVal → Except PyExc Nat
  | .list xs => .ok xs.length
  | .str s => .ok s.length
  | .dict kvs => .ok kvs.length
  | _ => .error (.typeError "object has no len")

/-- `iter(v)` flattened to the list of produced items (dict iteration
yields the keys, string iteration the characters). -/
def pyIter : PyVal → Except PyExc (List PyVal)
  | .list xs => .ok xs
  | .str s => .ok (s.toList.map fun c => PyVal.str (String.singleton c))
  | .dict kvs => .ok (kvs.map fun kv => PyVal.str kv.fst)
  | _ => .error (.typeError "object is not iterable")

/-- `v[:n]` followed by iteration: the first `n` items. -/
def pyTake (v : PyVal) (n : Nat) : Except PyExc (List PyVal) :=
  match v with
  | .list xs => .ok (xs.take n)
  | .str s => .ok ((s.toList.take n).map fun c => PyVal.str (String.singleton c))
  | _ => .error (.typeError "object is not subscriptable")

/-- A Python for-loop that appends one result per item and aborts on the
first exception, as `for x in xs: out.append(f(x))`. -/
def mapExcept {α β : Type} (f : α → Except PyExc β) : List α → Except PyExc (List β)
  | [] => .ok []
  | a :: as =>
    match f a with
    | .error e => .error e
    | .ok b =>
      match mapExcept f as with
      | .error e => .error e
      | .ok bs => .ok (b :: bs)

/-! ## Headline Formatter (`format_news_headlines`) -/

/-- One iteration of the article loop: the f-string
`Title: ...\nSource: ...\nPublished: ...\nURL: ...\n---\n`, with the four
`get` calls evaluated left to right. -/
def formatArticle (article : PyVal) : Except PyExc String :=
  match dictGet article "title" (.str "N/A") with
  | .error e => .error e
  | .ok t =>
  match dictGet article "source" (.dict []) with
  | .error e => .error e
  | .ok srcv =>
  match dictGet srcv "name" (.str "N/A") with
  | .error e => .error e
  | .ok s =>
  match dictGet article "publishedAt" (.str "N/A") with
  | .error e => .error e
  | .ok p =>
  match dictGet article "url" (.str "N/A") with
  | .error e => .error e
  | .ok u =>
    .ok ("Title: " ++ pyStr t ++ "\nSource: " ++ pyStr s ++ "\nPublished: " ++
      pyStr p ++ "\nURL: " ++ pyStr u ++ "\n---\n")

/-- The body of the `try` block of `format_news_headlines`. -/
def formatBody (news_data : PyVal) : Except PyExc String :=
  if !truthy news_data || !isDict news_data then
    .ok "No news data available."
  else
  match dictGet news_data "status" PyVal.none with
  | .error e => .error e
  | .ok status =>
  if !isStrVal status "ok" then
    match dictGet news_data "message" (.str "Unknown error") with
    | .error e => .error e
    | .ok msg => .ok ("NewsAPI error: " ++ pyStr msg)
  else
  match dictGet news_data "articles" (.list []) with
  | .error e => .error e
  | .ok articles =>
  if !truthy articles then
    .ok "No news articles found."
  else
  match pyIter articles with
  | .error e => .error e
  | .ok items =>
  match mapExcept formatArticle items with
  | .error e => .error e
  | .ok entries => .ok (String.intercalate "\n" ("Top News Headlines:\n" :: entries))

/-- `format_news_headlines`: the `try` body with the blanket
`except Exception` turning any exception into an `Error formatting news:`
text. -/
def format_news_headlines (news_data : PyVal) : String :=
  match formatBody news_data with
  | .ok s => s
  | .error e => "Error formatting news: " ++ excMsg e

/-! ## HTML Market Extractor (`scrape_polymarket`) -/

/-- One outcome-probability pair of a MarketSummary. -/
structure OutcomeProb where
  outcome : PyVal
  probability : PyVal

/-- One entry of the list `scrape_polymarket` returns:
`{"title": ..., "url": ..., "outcomes": [...]}`. -/
structure MarketSummary where
  title : PyVal
  url : String
  outcomes : List OutcomeProb

/-- What `json.loads(script_tag.string)` did: either the text was not
JSON, or it parsed to a value. -/
inductive ScriptContent where
  | malformed
  | parsed (v : PyVal)

/-- What the fetch of the Polymarket homepage produced: an HTTP failure
(`raise_for_status`), or a page on which `soup.find("script",
id="__NEXT_DATA__")` found nothing (`Option.none`) or found a script tag
with the given content. -/
inductive FetchOutcome where
  | httpFailure (msg : String)
  | page (scriptTag : Option ScriptContent)

/-- The fixed path `props → pageProps → dehydratedState → queries[0] →
state → data → pages[0] → events` through the `__NEXT_DATA__` JSON. -/
def navigateEvents (data : PyVal) : Except PyExc PyVal :=
  match subscriptKey data "props" with
  | .error e => .error e
  | .ok a =>
  match subscriptKey a "pageProps" with
  | .error e => .error e
  | .ok b =>
  match subscriptKey b "dehydratedState" with
  | .error e => .error e
  | .ok c =>
  match subscriptKey c "queries" with
  | .error e => .error e
  | .ok d =>
  match subscriptIdx d 0 with
  | .error e => .error e
  | .ok q0 =>
  match subscriptKey q0 "state" with
  | .error e => .error e
  | .ok st =>
  match subscriptKey st "data" with
  | .error e => .error e
  | .ok da =>
  match subscriptKey da "pages" with
  | .error e => .error e
  | .ok pg =>
  match subscriptIdx pg 0 with
  | .error e => .error e
  | .ok p0 => subscriptKey p0 "events"

/-- The list comprehension
`[{"outcome": outcomes[i], "probability": prices[i]} for i in range(n)]`
with `n = min(len(outcomes), len(prices))`. -/
def zipProbs (outcomes prices : PyVal) (n : Nat) : Except PyExc (List OutcomeProb) :=
  mapExcept (fun i =>
    match subscriptIdx outcomes i with
    | .error e => .error e
    | .ok o =>
      match subscriptIdx prices i with
      | .error e => .error e
      | .ok p => .ok (OutcomeProb.mk o p)) (List.range n)

/-- The body of the `for event in events[:20]` loop:
`title`/`slug` gets, URL construction, `event.get("markets", [])[0]`,
`outcomes`/`outcomePrices` gets, and the zip-by-index comprehension
`[{...} for i in range(min(len(outcomes), len(prices)))]`. -/
def processEvent (event : PyVal) : Except PyExc MarketSummary :=
  match dictGet event "title" (.str "") with
  | .error e => .error e
  | .ok title =>
  match dictGet event "slug" (.str "") with
  | .error e => .error e
  | .ok slug =>
  let url := "https://polymarket.com/market/" ++ pyStr slug
  match dictGet event "markets" (.list []) with
  | .error e => .error e
  | .ok marketsVal =>
  match subscriptIdx marketsVal 0 with
  | .error e => .error e
  | .ok market_info =>
  match dictGet market_info "outcomes" (.list []) with
  | .error e => .error e
  | .ok outcomes =>
  match dictGet market_info "outcomePrices" (.list []) with
  | .error e => .error e
  | .ok prices =>
  match pyLen outcomes with
  | .error e => .error e
  | .ok nOut =>
  match pyLen prices with
  | .error e => .error e
  | .ok nPr =>
  match zipProbs outcomes prices (min nOut nPr) with
  | .error e => .error e
  | .ok probs => .ok (MarketSummary.mk title url probs)

/-- The extraction loop over `events[:20]`, appending one summary per
event; any exception aborts the whole loop. -/
def scrape_events (events : PyVal) : Except PyExc (List MarketSummary) :=
  match pyTake events 20 with
  | .error e => .error e
  | .ok evs => mapExcept processEvent evs

/-- `scrape_polymarket`: raise on HTTP failure, `AttributeError` when the
`__NEXT_DATA__` script tag is absent (`None.string`), `ValueError`
(`json.JSONDecodeError`) on malformed JSON, then path navigation and the
event loop. -/
def scrape_polymarket (fetch : FetchOutcome) : Except PyExc (List MarketSummary) :=
  match fetch with
  | .httpFailure msg => .error (.httpError msg)
  | .page Option.none =>
    .error (.attributeError "NoneType object has no attribute string")
  | .page (some .malformed) =>
    .error (.valueError "Expecting value: line 1 column 1 (char 0)")
  | .page (some (.parsed data)) =>
    match navigateEvents data with
    | .error e => .error e
    | .ok events => scrape_events events

/-! ## Serialization (`json.dumps`) of the scrape results -/

/-- JSON string escaping of quote and backslash characters. -/
def jsonEscape (s : String) : String :=
  s.toList.foldl (fun acc c =>
    acc ++ (if c = Char.ofNat 34 then "\\\"" else
            if c = Char.ofNat 92 then "\\\\" else String.singleton c)) ""

mutual

/-- `json.dumps` of a Python value, with the default separators. -/
def jsonDumps : PyVal → String
  | PyVal.none => "null"
  | .bool true => "true"
  | .bool false => "false"
  | .int n => toString n
  | .str s => "\"" ++ jsonEscape s ++ "\""
  | .list xs => "[" ++ jsonDumpsElems xs ++ "]"
  | .dict kvs => "\x7b" ++ jsonDumpsPairs kvs ++ "\x7d"

/-- Comma-separated serializations of list elements. -/
def jsonDumpsElems : List PyVal → String
  | [] => ""
  | [v] => jsonDumps v
  | v :: vs => jsonDumps v ++ ", " ++ jsonDumpsElems vs

/-- Comma-separated serializations of dict entries. -/
def jsonDumpsPairs : List (String × PyVal) → String
  | [] => ""
  | [(k, v)] => "\"" ++ jsonEscape k ++ "\": " ++ jsonDumps v
  | (k, v) :: kvs =>
    "\"" ++ jsonEscape k ++ "\": " ++ jsonDumps v ++ ", " ++ jsonDumpsPairs kvs

end

/-- The dict `scrape_polymarket` appends to `results` for one event. -/
def summaryToPy (s : MarketSummary) : PyVal :=
  .dict [("title", s.title), ("url", .str s.url),
         ("outcomes", .list (s.outcomes.map fun op =>
            PyVal.dict [("outcome", op.outcome), ("probability", op.probability)]))]

/-- `json.dumps(results)` in the scrape branch of the dispatcher. -/
def dumpResults (rs : List MarketSummary) : String :=
  jsonDumps (.list (rs.map summaryToPy))

/-! ## Tool Registry (`list_tools`) -/

/-- One `types.Tool` declaration. -/
structure ToolDescriptor where
  name : String
  description : String
  inputSchema : PyVal

/-- The fixed list of three tool declarations returned by `list_tools`. -/
def list_tools : List ToolDescriptor :=
  [⟨"scrape-polymarket",
    "Scrape latest prediction markets from Polymarket homepage",
    .dict [("type", .str "object"), ("properties", .dict []),
           ("additionalProperties", .bool false)]⟩,
   ⟨"get-news-headlines",
    "Get top news headlines using NewsAPI.org",
    .dict [("type", .str "object"),
           ("properties", .dict
             [("query", .dict
                [("type", .str "string"),
                 ("description", .str "Keywords or phrase to search for in the news headlines.")]),
              ("language", .dict
                [("type", .str "string"),
                 ("description", .str "2-letter ISO-639-1 code of the language you want to get headlines for."),
                 ("default", .str "en")]),
              ("pageSize", .dict
                [("type", .str "integer"),
                 ("description", .str "Number of results to return per page (max 100)"),
                 ("default", .int 5),
                 ("minimum", .int 1),
                 ("maximum", .int 100)])]),
           ("required", .list [.str "query"])]⟩,
   ⟨"get-news-everything",
    "Get news articles using NewsAPI.org\x27s everything endpoint (broader search).",
    .dict [("type", .str "object"),
           ("properties", .dict
             [("query", .dict
                [("type", .str "string"),
                 ("description", .str "Keywords or phrase to search for in the news articles.")]),
              ("language", .dict
                [("type", .str "string"),
                 ("description", .str "2-letter ISO-639-1 code of the language you want to get articles for."),
                 ("default", .str "en")]),
              ("pageSize", .dict
                [("type", .str "integer"),
                 ("description", .str "Number of results to return per page (max 100)"),
                 ("default", .int 5),
                 ("minimum", .int 1),
                 ("maximum", .int 100)]),
              ("from", .dict
                [("type", .str "string"),
                 ("description", .str "A date and optional time for the oldest article allowed. (YYYY-MM-DD)")]),
              ("sortBy", .dict
                [("type", .str "string"),
                 ("description", .str "The order to sort the articles in. Possible options: relevancy, popularity, publishedAt"),
                 ("enum", .list [.str "relevancy", .str "popularity", .str "publishedAt"]),
                 ("default", .str "publishedAt")])]),
           ("required", .list [.str "query"])]⟩]

/-- The default the registry declares for a property of a tool's input
schema: `inputSchema → properties → prop → default`. -/
def declaredDefault (toolName prop : String) : Option PyVal :=
  match (list_tools.filter (fun t => t.name = toolName)).head? with
  | Option.none => Option.none
  | some t =>
    match t.inputSchema with
    | .dict schema =>
      match alookup schema "properties" with
      | some (.dict props) =>
        match alookup props prop with
        | some (.dict decl) => alookup decl "default"
        | _ => Option.none
      | _ => Option.none
    | _ => Option.none

/-! ## Dispatcher (`handle_call_tool`) -/

/-- One outbound news-API GET request: endpoint URL and the `params`
dict handed to `httpx`. -/
structure HttpRequest where
  url : String
  params : List (String × PyVal)

/-- What one dispatch produced: the returned list of text contents (or
the exception that escaped the handler), and the news-API requests it
sent on the way. -/
structure CallOutcome where
  result : Except PyExc (List String)
  requests : List HttpRequest

/-- `os.getenv` result as the `apiKey` request parameter value. -/
def keyVal : Option String → PyVal
  | some s => .str s
  | Option.none => PyVal.none

/-- Truthiness of the `api_key` variable (`if not api_key`): `None` and
the empty string are falsy. -/
def keyTruthy : Option String → Bool
  | some s => !s.isEmpty
  | Option.none => false

/-- `arguments.get(key, dflt)` where `arguments : dict | None`:
an `AttributeError` when `arguments` is `None`. -/
def argGet (args : Option (List (String × PyVal))) (key : String) (dflt : PyVal) :
    Except PyExc PyVal :=
  match args with
  | Option.none => .error (.attributeError "NoneType object has no attribute get")
  | some kvs => .ok ((alookup kvs key).getD dflt)

/-- The `scrape-polymarket` branch: the whole scrape and dump wrapped in
`try`/`except Exception`. -/
def scrapeBranch (fetch : FetchOutcome) : CallOutcome :=
  match scrape_polymarket fetch with
  | .ok results => ⟨.ok [dumpResults results], []⟩
  | .error e => ⟨.ok ["Error scraping Polymarket: " ++ excMsg e], []⟩

/-- The `get-news-headlines` branch: three argument gets, the API-key
guard, one GET to the top-headlines endpoint, formatting. -/
def newsHeadlines (key : Option String) (http : HttpRequest → PyVal)
    (args : Option (List (String × PyVal))) : CallOutcome :=
  match argGet args "query" PyVal.none with
  | .error e => ⟨.error e, []⟩
  | .ok query =>
  match argGet args "language" (.str "en") with
  | .error e => ⟨.error e, []⟩
  | .ok language =>
  match argGet args "pageSize" (.int 5) with
  | .error e => ⟨.error e, []⟩
  | .ok page_size =>
  if !keyTruthy key then
    ⟨.ok ["Missing NEWSAPI_KEY in environment."], []⟩
  else
    let req : HttpRequest :=
      ⟨"https://newsapi.org/v2/top-headlines",
       [("q", query), ("language", language), ("pageSize", page_size),
        ("apiKey", keyVal key)]⟩
    ⟨.ok [format_news_headlines (http req)], [req]⟩

/-- The `get-news-everything` branch: argument gets with the branch's own
defaults, no API-key guard, conditional `from`/`to` params, one GET to
the everything endpoint, formatting. -/
def newsEverything (key : Option String) (http : HttpRequest → PyVal)
    (args : Option (List (String × PyVal))) : CallOutcome :=
  match argGet args "query" PyVal.none with
  | .error e => ⟨.error e, []⟩
  | .ok query =>
  match argGet args "sortBy" (.str "popularity") with
  | .error e => ⟨.error e, []⟩
  | .ok sort_by =>
  match argGet args "pageSize" (.int 100) with
  | .error e => ⟨.error e, []⟩
  | .ok page_size =>
  match argGet args "page" (.int 1) with
  | .error e => ⟨.error e, []⟩
  | .ok page =>
  let params0 := [("q", query), ("apiKey", keyVal key), ("sortBy", sort_by),
                  ("pageSize", page_size), ("page", page)]
  match argGet args "from" PyVal.none with
  | .error e => ⟨.error e, []⟩
  | .ok fromv =>
  match argGet args "to" PyVal.none with
  | .error e => ⟨.error e, []⟩
  | .ok tov =>
  let params1 := if truthy fromv then params0 ++ [("from", fromv)] else params0
  let params2 := if truthy tov then params1 ++ [("to", tov)] else params1
  let req : HttpRequest := ⟨"https://newsapi.org/v2/everything", params2⟩
  ⟨.ok [format_news_headlines (http req)], [req]⟩

/-- `handle_call_tool`: dispatch by tool name, with the fallthrough
`Unknown tool:` text. `fetch` models what the Polymarket GET would
produce, `key` the `NEWSAPI_KEY` environment variable, and `http` the
news API's response to a request. -/
def handle_call_tool (fetch : FetchOutcome) (key : Option String)
    (http : HttpRequest → PyVal) (name : String)
    (arguments : Option (List (String × PyVal))) : CallOutcome :=
  if name = "scrape-polymarket" then
    scrapeBranch fetch
  else if name = "get-news-headlines" then
    newsHeadlines key http arguments
  else if name = "get-news-everything" then
    newsEverything key http arguments
  else
    ⟨.ok ["Unknown tool: " ++ name], []⟩

/-! ## Concrete fixtures used by witnesses and counterexamples -/

/-- A constant news-API response oracle. -/
def constHttp : HttpRequest → PyVal := fun _ => PyVal.dict [("status", .str "ok")]

/-- An event record whose `markets` array is empty. -/
def kvsEmptyMarkets : List (String × PyVal) :=
  [("title", .str "A"), ("slug", .str "a"), ("markets", .list [])]

/-- A well-formed event record with two outcomes and two prices. -/
def goodEvent : PyVal :=
  .dict [("title", .str "T"), ("slug", .str "t"),
         ("markets", .list [.dict [("outcomes", .list [.str "Yes", .str "No"]),
                                   ("outcomePrices", .list [.str "0.6", .str "0.4"])]])]

/-- The summary the extractor produces for `goodEvent`. -/
def goodSummary : MarketSummary :=
  ⟨.str "T", "https://polymarket.com/market/t",
   [⟨.str "Yes", .str "0.6"⟩, ⟨.str "No", .str "0.4"⟩]⟩

/-- Two events: the first has an empty `markets` array, the second is
well formed. -/
def events2 : List PyVal := [PyVal.dict kvsEmptyMarkets, goodEvent]

/-- Twenty-one well-formed events. -/
def events21 : List PyVal := List.replicate 21 goodEvent

/-- The twenty summaries the extractor produces for `events21`. -/
def res20 : List MarketSummary := List.replicate 20 goodSummary

/-- A market record with three outcomes and two prices. -/
def mkvs32 : List (String × PyVal) :=
  [("outcomes", .list [.str "A", .str "B", .str "C"]),
   ("outcomePrices", .list [.str "0.2", .str "0.3"])]

/-- An event record holding `mkvs32` as its single market. -/
def kvs32 : List (String × PyVal) :=
  [("title", .str "T"), ("slug", .str "t"), ("markets", .list [PyVal.dict mkvs32])]

/-! ## Helper lemmas -/

theorem mapExcept_ok_length {α β : Type} {f : α → Except PyExc β} {l : List α}
    {r : List β} (h : mapExcept f l = Except.ok r) : r.length = l.length := by
  induction l generalizing r with
  | nil =>
    simp only [mapExcept] at h
    cases h
    rfl
  | cons a as ih =>
    simp only [mapExcept] at h
    split at h
    next e hfa => exact Except.noConfusion h
    next b hfa =>
      split at h
      next e hrest => exact Except.noConfusion h
      next bs hrest =>
        cases h
        simp [ih hrest]

theorem mapExcept_ok_getElem {α β : Type} {f : α → Except PyExc β} {l : List α}
    {r : List β} (h : mapExcept f l = Except.ok r) :
    ∀ (i : Nat) (a : α), l[i]? = some a → ∃ b, r[i]? = some b ∧ f a = Except.ok b := by
  induction l generalizing r with
  | nil => intro i a ha; simp at ha
  | cons x xs ih =>
    simp only [mapExcept] at h
    split at h
    next e hfx => exact Except.noConfusion h
    next b hfx =>
      split at h
      next e hrest => exact Except.noConfusion h
      next bs hrest =>
        cases h
        intro i a ha
        cases i with
        | zero =>
          simp only [List.getElem?_cons_zero, Option.some.injEq] at ha
          subst ha
          exact ⟨b, List.getElem?_cons_zero, hfx⟩
        | succ j =>
          simp only [List.getElem?_cons_succ] at ha ⊢
          exact ih hrest j a ha

theorem mapExcept_ok_mem {α β : Type} {f : α → Except PyExc β} {l : List α}
    {r : List β} (h : mapExcept f l = Except.ok r) :
    ∀ a ∈ l, ∃ b, f a = Except.ok b := by
  induction l generalizing r with
  | nil => intro a ha; exact absurd ha (List.not_mem_nil a)
  | cons x xs ih =>
    simp only [mapExcept] at h
    split at h
    next e hfx => exact Except.noConfusion h
    next b hfx =>
      split at h
      next e hrest => exact Except.noConfusion h
      next bs hrest =>
        intro a ha
        rcases List.mem_cons.mp ha with rfl | ha2
        · exact ⟨b, hfx⟩
        · exact ih hrest a ha2

theorem mapExcept_eq_map {α β : Type} {f : α → Except PyExc β} {g : α → β}
    {l : List α} (h : ∀ a ∈ l, f a = Except.ok (g a)) :
    mapExcept f l = Except.ok (l.map g) := by
  induction l with
  | nil => rfl
  | cons x xs ih =>
    simp only [mapExcept]
    rw [h x (List.mem_cons_self x xs), ih (fun a ha => h a (List.mem_cons_of_mem x ha))]
    rfl

theorem alookup_isEmpty_eq_false {kvs : List (String × PyVal)} {k : String}
    {v : PyVal} (h : alookup kvs k = some v) : kvs.isEmpty = false := by
  cases kvs with
  | nil => exact Option.noConfusion h
  | cons kv rest => rfl

theorem isStrVal_false_of_ne {v : PyVal} {s : String} (h : v ≠ PyVal.str s) :
    isStrVal v s = false := by
  cases v with
  | str t =>
    simp only [isStrVal, decide_eq_false_iff_not]
    intro hs
    exact h (by rw [hs])
  | none => rfl
  | bool b => rfl
  | int n => rfl
  | list xs => rfl
  | dict kvs => rfl

theorem zipProbs_lists (os ps : List PyVal) :
    zipProbs (PyVal.list os) (PyVal.list ps) (min os.length ps.length) =
      Except.ok ((List.range (min os.length ps.length)).map fun i =>
        OutcomeProb.mk (os[i]?.getD PyVal.none) (ps[i]?.getD PyVal.none)) := by
  apply mapExcept_eq_map
  intro i hi
  have hi2 : i < min os.length ps.length := List.mem_range.mp hi
  have hio : i < os.length := lt_of_lt_of_le hi2 (min_le_left _ _)
  have hip : i < ps.length := lt_of_lt_of_le hi2 (min_le_right _ _)
  simp [subscriptIdx, List.getElem?_eq_getElem hio, List.getElem?_eq_getElem hip]

theorem newsEverything_requests (key : Option String) (http : HttpRequest → PyVal)
    (kvs : List (String × PyVal)) :
    ∃ req, (newsEverything key http (some kvs)).requests = [req] ∧
      req.url = "https://newsapi.org/v2/everything" ∧
      ("q", (alookup kvs "query").getD PyVal.none) ∈ req.params ∧
      ("apiKey", keyVal key) ∈ req.params ∧
      ("sortBy", (alookup kvs "sortBy").getD (.str "popularity")) ∈ req.params ∧
      ("pageSize", (alookup kvs "pageSize").getD (.int 100)) ∈ req.params := by
  refine ⟨_, rfl, rfl, ?_, ?_, ?_, ?_⟩ <;> (split <;> split <;> simp)

/-! ## Claims -/

/-- Claim C1, counterexample: with two events where the first has an
empty `markets` array, the extraction loop raises `IndexError` at
`event.get("markets", [])[0]` and aborts; no batch of summaries for the
remaining (well-formed) event is produced, contradicting the claim that
the batch for the other events is still produced. -/
theorem claim_C1_counterexample :
    scrape_events (PyVal.list events2) =
      Except.error (PyExc.indexError "list index out of range") := rfl

/-- Claim C1, amended: an event among the first 20 whose `markets` array
is empty makes `processEvent` raise `IndexError`, and the whole
extraction then fails rather than producing a batch of MarketSummary
results for the other events (the Dispatcher converts the exception to an
error text per C4). -/
theorem claim_C1_amended (events : List PyVal) (kvs : List (String × PyVal))
    (hmem : PyVal.dict kvs ∈ events.take 20)
    (hmk : alookup kvs "markets" = some (PyVal.list [])) :
    processEvent (PyVal.dict kvs) =
      Except.error (PyExc.indexError "list index out of range") ∧
    ∀ res, scrape_events (PyVal.list events) ≠ Except.ok res := by
  have hpe : processEvent (PyVal.dict kvs) =
      Except.error (PyExc.indexError "list index out of range") := by
    simp [processEvent, dictGet, hmk, subscriptIdx]
  refine ⟨hpe, fun res hok => ?_⟩
  have hok2 : mapExcept processEvent (events.take 20) = Except.ok res := hok
  obtain ⟨b, hb⟩ := mapExcept_ok_mem hok2 _ hmem
  rw [hpe] at hb
  exact Except.noConfusion hb

/-- Claim C1 witness for the amended statement: the concrete two-event
batch from the counterexample satisfies its hypotheses. -/
theorem claim_C1_witness :
    processEvent (PyVal.dict kvsEmptyMarkets) =
      Except.error (PyExc.indexError "list index out of range") :=
  (claim_C1_amended events2 kvsEmptyMarkets (List.mem_cons_self _ _) rfl).1

/-- Claim C2, counterexample: with `NEWSAPI_KEY` absent, dispatching
`get-news-everything` does send a request, and its `apiKey` parameter is
the missing (`None`) key — contradicting the claim that no request with a
missing key is sent for either news tool. -/
theorem claim_C2_counterexample :
    (handle_call_tool (FetchOutcome.page Option.none) Option.none constHttp
      "get-news-everything" (some [("query", PyVal.str "bitcoin")])).requests =
    [⟨"https://newsapi.org/v2/everything",
      [("q", .str "bitcoin"), ("apiKey", PyVal.none), ("sortBy", .str "popularity"),
       ("pageSize", .int 100), ("page", .int 1)]⟩] := rfl

/-- Claim C2, amended: only `get-news-headlines` guards the API key —
with a falsy key it returns the text `Missing NEWSAPI_KEY in
environment.` and sends no request; `get-news-everything` performs no
such check and sends its request with the missing key as the `apiKey`
parameter. -/
theorem claim_C2_amended (fetch : FetchOutcome) (key : Option String)
    (http : HttpRequest → PyVal) (kvs : List (String × PyVal))
    (hkey : keyTruthy key = false) :
    handle_call_tool fetch key http "get-news-headlines" (some kvs) =
      ⟨Except.ok ["Missing NEWSAPI_KEY in environment."], []⟩ ∧
    ∃ req, (handle_call_tool fetch key http "get-news-everything" (some kvs)).requests =
        [req] ∧
      req.url = "https://newsapi.org/v2/everything" ∧
      ("apiKey", keyVal key) ∈ req.params := by
  constructor
  · show newsHeadlines key http (some kvs) = _
    unfold newsHeadlines argGet
    rw [hkey]
    rfl
  · obtain ⟨req, hr, hurl, _, hk, _, _⟩ := newsEverything_requests key http kvs
    exact ⟨req, hr, hurl, hk⟩

/-- Claim C2 witness: concrete instantiation with the key absent. -/
theorem claim_C2_witness :
    handle_call_tool (FetchOutcome.page Option.none) Option.none constHttp
      "get-news-headlines" (some [("query", PyVal.str "x")]) =
      ⟨Except.ok ["Missing NEWSAPI_KEY in environment."], []⟩ :=
  (claim_C2_amended (FetchOutcome.page Option.none) Option.none constHttp
    [("query", PyVal.str "x")] rfl).1

/-- Claim C3, counterexample: the Tool Registry declares defaults
`pageSize = 5` and `sortBy = "publishedAt"` for `get-news-everything`,
but dispatching it without those arguments sends a request with
`sortBy = "popularity"` and `pageSize = 100`. -/
theorem claim_C3_counterexample :
    (handle_call_tool (FetchOutcome.page Option.none) (some "KEY") constHttp
      "get-news-everything" (some [("query", PyVal.str "x")])).requests =
      [⟨"https://newsapi.org/v2/everything",
        [("q", .str "x"), ("apiKey", .str "KEY"), ("sortBy", .str "popularity"),
         ("pageSize", .int 100), ("page", .int 1)]⟩] ∧
    declaredDefault "get-news-everything" "sortBy" = some (PyVal.str "publishedAt") ∧
    declaredDefault "get-news-everything" "pageSize" = some (PyVal.int 5) :=
  ⟨rfl, rfl, rfl⟩

/-- Claim C3, amended: for every `get-news-everything` invocation whose
argument map omits `pageSize` and `sortBy`, the dispatcher applies its
own hard-coded defaults `pageSize = 100` and `sortBy = "popularity"`,
which differ from the defaults the Tool Registry declares for that tool
(`5` and `"publishedAt"`). -/
theorem claim_C3_amended (fetch : FetchOutcome) (key : Option String)
    (http : HttpRequest → PyVal) (kvs : List (String × PyVal))
    (hs : alookup kvs "sortBy" = Option.none)
    (hp : alookup kvs "pageSize" = Option.none) :
    ∃ req, (handle_call_tool fetch key http "get-news-everything" (some kvs)).requests =
        [req] ∧
      ("sortBy", PyVal.str "popularity") ∈ req.params ∧
      ("pageSize", PyVal.int 100) ∈ req.params ∧
      declaredDefault "get-news-everything" "sortBy" = some (PyVal.str "publishedAt") ∧
      declaredDefault "get-news-everything" "pageSize" = some (PyVal.int 5) := by
  obtain ⟨req, hr, _, _, _, hsb, hps⟩ := newsEverything_requests key http kvs
  rw [hs] at hsb
  rw [hp] at hps
  exact ⟨req, hr, hsb, hps, rfl, rfl⟩

/-- Claim C3 witness: concrete instantiation with only `query` given. -/
theorem claim_C3_witness :
    ∃ req, (handle_call_tool (FetchOutcome.page Option.none) (some "KEY") constHttp
        "get-news-everything" (some [("query", PyVal.str "x")])).requests = [req] ∧
      ("sortBy", PyVal.str "popularity") ∈ req.params ∧
      ("pageSize", PyVal.int 100) ∈ req.params ∧
      declaredDefault "get-news-everything" "sortBy" = some (PyVal.str "publishedAt") ∧
      declaredDefault "get-news-everything" "pageSize" = some (PyVal.int 5) :=
  claim_C3_amended (FetchOutcome.page Option.none) (some "KEY") constHttp
    [("query", PyVal.str "x")] rfl rfl

/-- Claim C4: every exception raised by the Market Extractor during a
`scrape-polymarket` dispatch is caught and converted to a text beginning
`Error scraping Polymarket: `; the HTML-without-`__NEXT_DATA__` case does
raise; and the scrape branch never yields a protocol-level error. -/
theorem claim_C4 (fetch : FetchOutcome) (key : Option String)
    (http : HttpRequest → PyVal) (args : Option (List (String × PyVal))) :
    (∀ e, scrape_polymarket fetch = Except.error e →
      handle_call_tool fetch key http "scrape-polymarket" args =
        ⟨Except.ok ["Error scraping Polymarket: " ++ excMsg e], []⟩) ∧
    (∃ e, scrape_polymarket (FetchOutcome.page Option.none) = Except.error e) ∧
    (∃ texts, (handle_call_tool fetch key http "scrape-polymarket" args).result =
      Except.ok texts) := by
  refine ⟨fun e he => ?_, ⟨_, rfl⟩, ?_⟩
  · show scrapeBranch fetch = _
    unfold scrapeBranch
    rw [he]
  · show ∃ texts, (scrapeBranch fetch).result = Except.ok texts
    unfold scrapeBranch
    cases hs : scrape_polymarket fetch with
    | ok r => exact ⟨[dumpResults r], rfl⟩
    | error e => exact ⟨["Error scraping Polymarket: " ++ excMsg e], rfl⟩

/-- Claim C4 witness: the missing-`__NEXT_DATA__` page produces the
`Error scraping Polymarket:` text. -/
theorem claim_C4_witness :
    handle_call_tool (FetchOutcome.page Option.none) Option.none constHttp
      "scrape-polymarket" Option.none =
      ⟨Except.ok ["Error scraping Polymarket: " ++
        excMsg (PyExc.attributeError "NoneType object has no attribute string")], []⟩ :=
  (claim_C4 (FetchOutcome.page Option.none) Option.none constHttp Option.none).1 _ rfl

/-- Claim C5: for a news-response mapping carrying a `status` field, a
status other than `"ok"` formats to `NewsAPI error: ` followed by the
message (or `Unknown error` when absent), and status `"ok"` with an
empty (or absent) `articles` sequence formats to
`No news articles found.`. -/
theorem claim_C5 (kvs : List (String × PyVal)) (st : PyVal)
    (hst : alookup kvs "status" = some st) :
    (st ≠ PyVal.str "ok" →
      (∀ m, alookup kvs "message" = some m →
        format_news_headlines (PyVal.dict kvs) = "NewsAPI error: " ++ pyStr m) ∧
      (alookup kvs "message" = Option.none →
        format_news_headlines (PyVal.dict kvs) = "NewsAPI error: Unknown error")) ∧
    (st = PyVal.str "ok" →
      (alookup kvs "articles" = some (PyVal.list []) ∨
       alookup kvs "articles" = Option.none) →
      format_news_headlines (PyVal.dict kvs) = "No news articles found.") := by
  have hkvs : kvs.isEmpty = false := alookup_isEmpty_eq_false hst
  refine ⟨fun hne => ⟨fun m hm => ?_, fun hm => ?_⟩, fun hok harts => ?_⟩
  · simp [format_news_headlines, formatBody, truthy, isDict, hkvs, dictGet, hst,
      isStrVal_false_of_ne hne, hm]
  · simp [format_news_headlines, formatBody, truthy, isDict, hkvs, dictGet, hst,
      isStrVal_false_of_ne hne, hm, pyStr]
  · subst hok
    rcases harts with hm | hm <;>
      simp [format_news_headlines, formatBody, truthy, isDict, hkvs, dictGet, hst,
        isStrVal, hm]

/-- Claim C5 witness: the two concrete formatter cases from the spec. -/
theorem claim_C5_witness :
    format_news_headlines
        (PyVal.dict [("status", .str "error"), ("message", .str "rate limited")]) =
      "NewsAPI error: " ++ pyStr (.str "rate limited") ∧
    format_news_headlines (PyVal.dict [("status", .str "ok"), ("articles", .list [])]) =
      "No news articles found." :=
  ⟨((claim_C5 [("status", .str "error"), ("message", .str "rate limited")]
      (.str "error") rfl).1
      (fun h => absurd (PyVal.str.inj h) (by decide))).1 _ rfl,
   (claim_C5 [("status", .str "ok"), ("articles", .list [])]
      (.str "ok") rfl).2 rfl (Or.inl rfl)⟩

/-- Claim C6: whenever the extraction of a batch with at least 21 events
succeeds, it returns exactly 20 summaries, and they are the summaries of
the first 20 events in their original order. -/
theorem claim_C6 (events : List PyVal) (res : List MarketSummary)
    (hn : 21 ≤ events.length)
    (hok : scrape_events (PyVal.list events) = Except.ok res) :
    res.length = 20 ∧
    ∀ i : Nat, i < 20 → ∃ e s, events[i]? = some e ∧ res[i]? = some s ∧
      processEvent e = Except.ok s := by
  have hok2 : mapExcept processEvent (events.take 20) = Except.ok res := hok
  have hlen : res.length = 20 := by
    rw [mapExcept_ok_length hok2, List.length_take]
    omega
  refine ⟨hlen, fun i hi => ?_⟩
  have hie : i < events.length := by omega
  have hta : (events.take 20)[i]? = some events[i] := by
    rw [List.getElem?_take_of_lt hi, List.getElem?_eq_getElem hie]
  obtain ⟨s, hs, hps⟩ := mapExcept_ok_getElem hok2 i events[i] hta
  exact ⟨events[i], s, List.getElem?_eq_getElem hie, hs, hps⟩

/-- Claim C6 witness: twenty-one identical well-formed events extract to
exactly twenty summaries. -/
theorem claim_C6_witness :
    21 ≤ events21.length ∧ res20.length = 20 ∧
    ∃ e s, events21[0]? = some e ∧ res20[0]? = some s ∧
      processEvent e = Except.ok s :=
  ⟨by decide,
   (claim_C6 events21 res20 (by decide) rfl).1,
   (claim_C6 events21 res20 (by decide) rfl).2 0 (by decide)⟩

/-- Claim C7: for an event whose first market carries `outcomes` and
`outcomePrices` lists, the produced outcome-probability sequence has
length `min` of the two lengths and pairs the two lists positionally. -/
theorem claim_C7 (kvs mkvs : List (String × PyVal)) (rest os ps : List PyVal)
    (hm : alookup kvs "markets" = some (PyVal.list (PyVal.dict mkvs :: rest)))
    (ho : alookup mkvs "outcomes" = some (PyVal.list os))
    (hp : alookup mkvs "outcomePrices" = some (PyVal.list ps)) :
    ∃ s, processEvent (PyVal.dict kvs) = Except.ok s ∧
      s.outcomes.length = min os.length ps.length ∧
      ∀ i : Nat, i < min os.length ps.length →
        ∃ o p, os[i]? = some o ∧ ps[i]? = some p ∧
          s.outcomes[i]? = some ⟨o, p⟩ := by
  refine ⟨⟨(alookup kvs "title").getD (.str ""),
    "https://polymarket.com/market/" ++ pyStr ((alookup kvs "slug").getD (.str "")),
    (List.range (min os.length ps.length)).map fun i =>
      OutcomeProb.mk (os[i]?.getD PyVal.none) (ps[i]?.getD PyVal.none)⟩, ?_, ?_, ?_⟩
  · simp [processEvent, dictGet, hm, subscriptIdx, ho, hp, pyLen, zipProbs_lists]
  · simp
  · intro i hi
    have hio : i < os.length := lt_of_lt_of_le hi (min_le_left _ _)
    have hip : i < ps.length := lt_of_lt_of_le hi (min_le_right _ _)
    refine ⟨os[i], ps[i], List.getElem?_eq_getElem hio, List.getElem?_eq_getElem hip, ?_⟩
    simp [List.getElem?_map, List.getElem?_range hi, List.getElem?_eq_getElem hio,
      List.getElem?_eq_getElem hip]

/-- Claim C7 witness: three outcomes with two prices yield a sequence of
length two. -/
theorem claim_C7_witness :
    ∃ s, processEvent (PyVal.dict kvs32) = Except.ok s ∧ s.outcomes.length = 2 := by
  obtain ⟨s, h1, h2, _⟩ := claim_C7 kvs32 mkvs32 [] _ _ rfl rfl rfl
  exact ⟨s, h1, h2⟩

/-- Claim C8: the Headline Formatter never propagates an exception: on
any input it returns the body's string when the body succeeds, and the
text `Error formatting news: <message>` when the body raises. -/
theorem claim_C8 (v : PyVal) :
    (∀ e, formatBody v = Except.error e →
      format_news_headlines v = "Error formatting news: " ++ excMsg e) ∧
    (∀ s, formatBody v = Except.ok s → format_news_headlines v = s) := by
  constructor
  · intro e he
    unfold format_news_headlines
    rw [he]
  · intro s hs
    unfold format_news_headlines
    rw [hs]

/-- Claim C8 witness: a non-mapping article makes the body raise, and
the formatter returns the `Error formatting news:` text. -/
theorem claim_C8_witness :
    format_news_headlines
        (PyVal.dict [("status", PyVal.str "ok"), ("articles", PyVal.list [PyVal.int 5])]) =
      "Error formatting news: " ++
        excMsg (PyExc.attributeError "object has no attribute get (key title)") :=
  (claim_C8 _).1 _ rfl

/-- Claim C9: every tool name outside the declared set falls through to
the single successful text `Unknown tool: <name>`. -/
theorem claim_C9 (fetch : FetchOutcome) (key : Option String)
    (http : HttpRequest → PyVal) (args : Option (List (String × PyVal)))
    (name : String)
    (h1 : name ≠ "scrape-polymarket") (h2 : name ≠ "get-news-headlines")
    (h3 : name ≠ "get-news-everything") :
    handle_call_tool fetch key http name args =
      ⟨Except.ok ["Unknown tool: " ++ name], []⟩ := by
  unfold handle_call_tool
  rw [if_neg h1, if_neg h2, if_neg h3]

/-- Claim C9 witness: dispatching `not-a-tool` returns exactly
`Unknown tool: not-a-tool`. -/
theorem claim_C9_witness :
    handle_call_tool (FetchOutcome.page Option.none) Option.none constHttp
      "not-a-tool" Option.none =
      ⟨Except.ok ["Unknown tool: not-a-tool"], []⟩ :=
  claim_C9 (FetchOutcome.page Option.none) Option.none constHttp Option.none
    "not-a-tool" (by decide) (by decide) (by decide)

/-- Claim C10: dispatching either news tool with a `None` argument map
raises `AttributeError` out of the handler instead of returning a text
result, while the `scrape-polymarket` branch returns a text result for
every argument map. -/
theorem claim_C10 (fetch : FetchOutcome) (key : Option String)
    (http : HttpRequest → PyVal) :
    (handle_call_tool fetch key http "get-news-headlines" Option.none).result =
      Except.error (PyExc.attributeError "NoneType object has no attribute get") ∧
    (handle_call_tool fetch key http "get-news-everything" Option.none).result =
      Except.error (PyExc.attributeError "NoneType object has no attribute get") ∧
    (∀ args, ∃ texts,
      (handle_call_tool fetch key http "scrape-polymarket" args).result =
        Except.ok texts) := by
  refine ⟨rfl, rfl, fun args => ?_⟩
  show ∃ texts, (scrapeBranch fetch).result = Except.ok texts
  unfold scrapeBranch
  cases hs : scrape_polymarket fetch with
  | ok r => exact ⟨[dumpResults r], rfl⟩
  | error e => exact ⟨["Error scraping Polymarket: " ++ excMsg e], rfl⟩

end PolymarketMCP
